import Mathlib

/-!
Shallow embedding of the battle core of the pokemon-red-player repository
(`src/battle/type_chart.py`, `src/battle/damage_calc.py`, `src/pokemon/stats.py`,
`src/pokemon/pokemon.py`, `src/states/battle_state.py`, `src/battle/battle_manager.py`)
and proofs about the frozen specification claims.

Python runtime integers are modelled as `ℤ`, Python floats as `ℚ` (the float
computations in the battle core stay far from rounding boundaries, so the exact
rational value determines every branch and every `int`/`floor` cast that the
claims mention).  The ambient random generator is modelled as an explicit state:
a list of rational pre-draws for `random.random()` and a list of integer
pre-draws for `random.randint`, consumed from the front; `randint lo hi` maps a
pre-draw into the interval `[lo, hi]` the way any draw of the real generator
lands there.  Code that raises `ZeroDivisionError` is modelled with `Option`,
returning `none` exactly where Python would raise.
-/

/-- Python `int(x)` applied to a float: truncation toward zero. -/
def pyInt (q : ℚ) : ℤ := if 0 ≤ q then ⌊q⌋ else ⌈q⌉

/-- ASCII lower-casing of one character (the fragment of Python `str.lower`
exercised by the type names). -/
def pyCharLower (c : Char) : Char :=
  if 65 ≤ c.toNat ∧ c.toNat ≤ 90 then Char.ofNat (c.toNat + 32) else c

/-- ASCII upper-casing of one character (the fragment of Python `str.upper`
exercised by the species names). -/
def pyCharUpper (c : Char) : Char :=
  if 97 ≤ c.toNat ∧ c.toNat ≤ 122 then Char.ofNat (c.toNat - 32) else c

/-- Python `str.lower` (ASCII). -/
def pyLower (s : String) : String := ⟨s.data.map pyCharLower⟩

/-- Python `str.upper` (ASCII). -/
def pyUpper (s : String) : String := ⟨s.data.map pyCharUpper⟩

/-- The ambient `random` module state: pre-draws for `random.random()` (rationals)
and for `random.randint` (integers). -/
structure Rng where
  floats : List ℚ
  ints : List ℤ
deriving Repr, DecidableEq

/-- `random.random()`: consume one float pre-draw, normalised into `[0, 1)`. -/
def Rng.randFloat (r : Rng) : ℚ × Rng :=
  (Int.fract (r.floats.headD 0), { r with floats := r.floats.tail })

/-- `random.randint lo hi`: consume one integer pre-draw, normalised into `[lo, hi]`. -/
def Rng.randInt (lo hi : ℤ) (r : Rng) : ℤ × Rng :=
  (lo + (r.ints.headD 0 - lo).emod (hi - lo + 1), { r with ints := r.ints.tail })

/-- A five-entry stat block (`hp`, `attack`, `defense`, `speed`, `special`),
the shape of the `base_stats` / `ivs` / `evs` / `stats` dictionaries. -/
structure StatBlock where
  hp : ℤ
  attack : ℤ
  defense : ℤ
  speed : ℤ
  special : ℤ
deriving Repr, DecidableEq

/-- One move slot dictionary: name, power, type, max PP, remaining PP, accuracy. -/
structure Move where
  name : String
  power : ℤ
  type : String
  pp : ℤ
  current_pp : ℤ
  accuracy : ℤ
deriving Repr, DecidableEq

/-- The mutable state of one `Pokemon` instance (`src/pokemon/pokemon.py`). -/
structure Pokemon where
  species : String
  name : String
  level : ℤ
  types : List String
  ivs : StatBlock
  evs : StatBlock
  base_stats : StatBlock
  stats : StatBlock
  max_hp : ℤ
  current_hp : ℤ
  exp : ℤ
  moves : List Move
  status : Option String
  status_turns : ℤ
deriving Repr, DecidableEq

/-! ## `src/battle/type_chart.py` -/

/-- `TYPE_CHART`: attack type → (defend type → multiplier). -/
def TYPE_CHART : List (String × List (String × ℚ)) :=
  [("normal", [("rock", 1/2), ("ghost", 0)]),
   ("fire", [("fire", 1/2), ("water", 1/2), ("grass", 2), ("ice", 2), ("bug", 2),
             ("rock", 1/2), ("dragon", 1/2)]),
   ("water", [("fire", 2), ("water", 1/2), ("grass", 1/2), ("ground", 2),
              ("rock", 2), ("dragon", 1/2)]),
   ("electric", [("water", 2), ("electric", 1/2), ("grass", 1/2), ("ground", 0),
                 ("flying", 2), ("dragon", 1/2)]),
   ("grass", [("fire", 1/2), ("water", 2), ("grass", 1/2), ("poison", 1/2),
              ("ground", 2), ("flying", 1/2), ("bug", 1/2), ("rock", 2), ("dragon", 1/2)]),
   ("ice", [("fire", 1/2), ("water", 1/2), ("grass", 2), ("ice", 1/2),
            ("ground", 2), ("flying", 2), ("dragon", 2)]),
   ("fighting", [("normal", 2), ("ice", 2), ("poison", 1/2), ("flying", 1/2),
                 ("psychic", 1/2), ("bug", 1/2), ("rock", 2), ("ghost", 0)]),
   ("poison", [("grass", 2), ("poison", 1/2), ("ground", 1/2), ("bug", 2),
               ("rock", 1/2), ("ghost", 1/2)]),
   ("ground", [("fire", 2), ("electric", 2), ("grass", 1/2), ("poison", 2),
               ("flying", 0), ("bug", 1/2), ("rock", 2)]),
   ("flying", [("electric", 1/2), ("grass", 2), ("fighting", 2), ("bug", 2),
               ("rock", 1/2)]),
   ("psychic", [("fighting", 2), ("poison", 2), ("psychic", 1/2)]),
   ("bug", [("fire", 1/2), ("grass", 2), ("fighting", 1/2), ("poison", 2),
            ("flying", 1/2), ("psychic", 2), ("ghost", 1/2)]),
   ("rock", [("fire", 2), ("ice", 2), ("fighting", 1/2), ("ground", 1/2),
             ("flying", 2), ("bug", 2)]),
   ("ghost", [("normal", 0), ("ghost", 2), ("psychic", 0)]),
   ("dragon", [("dragon", 2)])]

/-- The raw chart lookup of a (lower-case) attack/defend pair, `none` when the
pair is absent from `TYPE_CHART`. -/
def chart_lookup (attack_type defend_type : String) : Option ℚ :=
  match TYPE_CHART.lookup attack_type with
  | none => none
  | some inner => inner.lookup defend_type

/-- `get_type_effectiveness`: multiplier with default `1.0` for absent pairs. -/
def get_type_effectiveness (attack_type defend_type : String) : ℚ :=
  let a := pyLower attack_type
  let d := pyLower defend_type
  match TYPE_CHART.lookup a with
  | some inner => (inner.lookup d).getD 1
  | none => 1

/-- `get_all_effectiveness`: combined multiplier against a list of defend types. -/
def get_all_effectiveness (attack_type : String) (defend_types : List String) : ℚ :=
  defend_types.foldl (fun m d => m * get_type_effectiveness attack_type d) 1

/-! ## `src/pokemon/stats.py` -/

/-- `calculate_stat`: non-HP Gen-1 stat formula
`max(1, floor(((base+iv)*2 + floor(sqrt(ev)/4)) * level / 100) + 5)`.
The float `math.floor(math.sqrt(ev)/4)` agrees with `Nat.sqrt ev / 4` since
`floor (sqrt ev / 4) = (Nat.sqrt ev) / 4` and the correctly rounded double
square root never crosses a multiple of 4. -/
def calculate_stat (base iv : ℤ) (ev : ℕ) (level : ℤ) : ℤ :=
  let ev_bonus : ℤ := (Nat.sqrt ev : ℤ) / 4
  let stat := ⌊((((base + iv) * 2 + ev_bonus) * level : ℚ) / 100)⌋ + 5
  max 1 stat

/-- `calculate_hp`: HP Gen-1 formula
`max(1, floor(((base+iv)*2 + floor(sqrt(ev)/4)) * level / 100) + level + 10)`. -/
def calculate_hp (base iv : ℤ) (ev : ℕ) (level : ℤ) : ℤ :=
  let ev_bonus : ℤ := (Nat.sqrt ev : ℤ) / 4
  let hp := ⌊((((base + iv) * 2 + ev_bonus) * level : ℚ) / 100)⌋ + level + 10
  max 1 hp

/-- `calculate_exp_yield`: experience from defeating a Pokemon,
`int((a * base_exp * level) / 7)` with `a = 1` if wild else `1.5`,
times `1.5` again when traded. -/
def calculate_exp_yield (base_exp level : ℤ) (is_wild : Bool) (traded : Bool) : ℤ :=
  let a : ℚ := if is_wild then 1 else 3/2
  let e : ℚ := (a * base_exp * level) / 7
  let e := if traded then e * (3/2) else e
  pyInt e

/-! ## `src/pokemon/pokemon.py` -/

/-- One `BASE_STATS` table entry: five base stats plus the type list. -/
structure BaseEntry where
  hp : ℤ
  attack : ℤ
  defense : ℤ
  speed : ℤ
  special : ℤ
  types : List String
deriving Repr, DecidableEq

/-- `Pokemon.BASE_STATS`: base stats for the demo species. -/
def BASE_STATS : List (String × BaseEntry) :=
  [("BULBASAUR", ⟨45, 49, 49, 45, 65, ["grass", "poison"]⟩),
   ("IVYSAUR", ⟨60, 62, 63, 60, 80, ["grass", "poison"]⟩),
   ("VENUSAUR", ⟨80, 82, 83, 80, 100, ["grass", "poison"]⟩),
   ("CHARMANDER", ⟨39, 52, 43, 65, 50, ["fire"]⟩),
   ("CHARMELEON", ⟨58, 64, 58, 80, 65, ["fire"]⟩),
   ("CHARIZARD", ⟨78, 84, 78, 100, 85, ["fire", "flying"]⟩),
   ("SQUIRTLE", ⟨44, 48, 65, 43, 50, ["water"]⟩),
   ("WARTORTLE", ⟨59, 63, 80, 58, 65, ["water"]⟩),
   ("BLASTOISE", ⟨79, 83, 100, 78, 85, ["water"]⟩),
   ("CATERPIE", ⟨45, 30, 35, 45, 20, ["bug"]⟩),
   ("METAPOD", ⟨50, 20, 55, 30, 25, ["bug"]⟩),
   ("BUTTERFREE", ⟨60, 45, 50, 70, 80, ["bug", "flying"]⟩),
   ("WEEDLE", ⟨40, 35, 30, 50, 20, ["bug", "poison"]⟩),
   ("KAKUNA", ⟨45, 25, 50, 35, 25, ["bug", "poison"]⟩),
   ("BEEDRILL", ⟨65, 80, 40, 75, 45, ["bug", "poison"]⟩),
   ("PIDGEY", ⟨40, 45, 40, 56, 35, ["normal", "flying"]⟩),
   ("PIDGEOTTO", ⟨63, 60, 55, 71, 50, ["normal", "flying"]⟩),
   ("PIDGEOT", ⟨83, 80, 75, 91, 70, ["normal", "flying"]⟩),
   ("RATTATA", ⟨30, 56, 35, 72, 25, ["normal"]⟩),
   ("RATICATE", ⟨55, 81, 60, 97, 50, ["normal"]⟩),
   ("PIKACHU", ⟨35, 55, 30, 90, 50, ["electric"]⟩),
   ("RAICHU", ⟨60, 90, 55, 100, 90, ["electric"]⟩),
   ("GEODUDE", ⟨40, 80, 100, 20, 30, ["rock", "ground"]⟩),
   ("GRAVELER", ⟨55, 95, 115, 35, 45, ["rock", "ground"]⟩),
   ("ONIX", ⟨35, 45, 160, 70, 30, ["rock", "ground"]⟩)]

/-- One `DEFAULT_MOVES` table entry (`name`, `power`, `type`, `pp`). -/
structure MoveEntry where
  name : String
  power : ℤ
  type : String
  pp : ℤ
deriving Repr, DecidableEq

/-- `Pokemon.DEFAULT_MOVES`: default move lists for the demo species. -/
def DEFAULT_MOVES : List (String × List MoveEntry) :=
  [("BULBASAUR", [⟨"TACKLE", 40, "normal", 35⟩, ⟨"GROWL", 0, "normal", 40⟩]),
   ("CHARMANDER", [⟨"SCRATCH", 40, "normal", 35⟩, ⟨"GROWL", 0, "normal", 40⟩]),
   ("SQUIRTLE", [⟨"TACKLE", 40, "normal", 35⟩, ⟨"TAIL WHIP", 0, "normal", 30⟩]),
   ("PIDGEY", [⟨"TACKLE", 40, "normal", 35⟩, ⟨"SAND ATTACK", 0, "ground", 15⟩]),
   ("RATTATA", [⟨"TACKLE", 40, "normal", 35⟩, ⟨"TAIL WHIP", 0, "normal", 30⟩]),
   ("CATERPIE", [⟨"TACKLE", 40, "normal", 35⟩, ⟨"STRING SHOT", 0, "bug", 40⟩]),
   ("WEEDLE", [⟨"POISON STING", 15, "poison", 35⟩, ⟨"STRING SHOT", 0, "bug", 40⟩]),
   ("PIKACHU", [⟨"THUNDER SHOCK", 40, "electric", 30⟩, ⟨"GROWL", 0, "normal", 40⟩]),
   ("GEODUDE", [⟨"TACKLE", 40, "normal", 35⟩, ⟨"DEFENSE CURL", 0, "normal", 40⟩]),
   ("ONIX", [⟨"TACKLE", 40, "normal", 35⟩, ⟨"SCREECH", 0, "normal", 40⟩,
             ⟨"ROCK THROW", 50, "rock", 15⟩])]

/-- `Pokemon._exp_for_level`: `int(1.2*n^3 - 15*n^2 + 100*n - 140)`
(medium-slow curve; Python `int` truncates toward zero, and for the float
expression the exact rational value determines the result at every level). -/
def exp_for_level (level : ℤ) : ℤ :=
  pyInt ((6 * level ^ 3 : ℚ) / 5 - 15 * level ^ 2 + 100 * level - 140)

/-- `Pokemon._calculate_stats`: recompute the whole stat block from base stats,
IVs, EVs and level. -/
def pokemon_stats (base ivs evs : StatBlock) (level : ℤ) : StatBlock :=
  { hp := calculate_hp base.hp ivs.hp evs.hp.toNat level
    attack := calculate_stat base.attack ivs.attack evs.attack.toNat level
    defense := calculate_stat base.defense ivs.defense evs.defense.toNat level
    speed := calculate_stat base.speed ivs.speed evs.speed.toNat level
    special := calculate_stat base.special ivs.special evs.special.toNat level }

/-- `Pokemon._learn_default_moves`: the first four default moves of the species,
with `current_pp` initialised to `pp` and accuracy defaulting to 100. -/
def learn_default_moves (species : String) : List Move :=
  let entries := (DEFAULT_MOVES.lookup species).getD [⟨"TACKLE", 40, "normal", 35⟩]
  (entries.take 4).map fun e =>
    { name := e.name, power := e.power, type := e.type,
      pp := e.pp, current_pp := e.pp, accuracy := 100 }

/-- `Pokemon.__init__`: build a fresh Pokemon at a species and level, drawing
the four independent IVs from the random source (`random.randint(0, 15)` each)
and deriving the HP IV from their low bits. -/
def Pokemon.new (rng : Rng) (species : String) (level : ℤ)
    (nickname : Option String) : Pokemon × Rng :=
  let sp := pyUpper species
  let lvl := max 1 (min 100 level)
  let base := (BASE_STATS.lookup sp).getD ⟨50, 50, 50, 50, 50, ["normal"]⟩
  let (iv_attack, rng) := rng.randInt 0 15
  let (iv_defense, rng) := rng.randInt 0 15
  let (iv_speed, rng) := rng.randInt 0 15
  let (iv_special, rng) := rng.randInt 0 15
  let iv_hp : ℤ :=
    ((iv_attack.toNat &&& 1) <<< 3 ||| (iv_defense.toNat &&& 1) <<< 2 |||
     (iv_speed.toNat &&& 1) <<< 1 ||| (iv_special.toNat &&& 1) : ℕ)
  let ivs : StatBlock := ⟨iv_hp, iv_attack, iv_defense, iv_speed, iv_special⟩
  let evs : StatBlock := ⟨0, 0, 0, 0, 0⟩
  let base_stats : StatBlock := ⟨base.hp, base.attack, base.defense, base.speed, base.special⟩
  let stats := pokemon_stats base_stats ivs evs lvl
  ({ species := sp
     name := nickname.getD sp
     level := lvl
     types := base.types
     ivs := ivs
     evs := evs
     base_stats := base_stats
     stats := stats
     max_hp := stats.hp
     current_hp := stats.hp
     exp := exp_for_level lvl
     moves := learn_default_moves sp
     status := none
     status_turns := 0 }, rng)

/-- `Pokemon._level_up`: raise the level by one, recompute stats and max HP,
and heal exactly the HP gained (capped at the new max HP). -/
def Pokemon.level_up (p : Pokemon) : Pokemon :=
  let level := p.level + 1
  let old_max_hp := p.max_hp
  let stats := pokemon_stats p.base_stats p.ivs p.evs level
  let max_hp := stats.hp
  let hp_gain := max_hp - old_max_hp
  { p with level := level, stats := stats, max_hp := max_hp,
           current_hp := min max_hp (p.current_hp + hp_gain) }

/-- `Pokemon.take_damage`: clamp current HP at 0 from below. -/
def Pokemon.take_damage (p : Pokemon) (damage : ℤ) : Pokemon :=
  { p with current_hp := max 0 (p.current_hp - damage) }

/-- `Pokemon.heal`: clamp current HP at max HP from above. -/
def Pokemon.heal (p : Pokemon) (amount : ℤ) : Pokemon :=
  { p with current_hp := min p.max_hp (p.current_hp + amount) }

/-- `Pokemon.use_move`: `none` (and no state change) for an out-of-range index
or an exhausted move, otherwise decrement the slot's remaining PP by one and
return the updated move. -/
def Pokemon.use_move (p : Pokemon) (move_index : ℕ) : Option Move × Pokemon :=
  match p.moves.get? move_index with
  | none => (none, p)
  | some move =>
    if move.current_pp ≤ 0 then (none, p)
    else
      let move := { move with current_pp := move.current_pp - 1 }
      (some move, { p with moves := p.moves.set move_index move })

/-- The persisted record shape produced by `Pokemon.to_dict` and consumed by
`Pokemon.from_dict` (all keys present, as `to_dict` always writes them). -/
structure PokemonRecord where
  species : String
  name : String
  level : ℤ
  current_hp : ℤ
  exp : ℤ
  ivs : StatBlock
  evs : StatBlock
  moves : List Move
  status : Option String
deriving Repr, DecidableEq

/-- `Pokemon.to_dict`: serialise the persisted fields. -/
def Pokemon.to_dict (p : Pokemon) : PokemonRecord :=
  { species := p.species, name := p.name, level := p.level,
    current_hp := p.current_hp, exp := p.exp, ivs := p.ivs, evs := p.evs,
    moves := p.moves, status := p.status }

/-- `Pokemon.from_dict`: construct at the persisted species/level/name, then
overwrite current HP, experience, IVs, EVs, status and moves from the record,
and finally recompute the stat block and max HP from the loaded IVs/EVs.
The loaded current HP is NOT clamped against the recomputed max HP. -/
def Pokemon.from_dict (rng : Rng) (data : PokemonRecord) : Pokemon × Rng :=
  let (p, rng) := Pokemon.new rng data.species data.level (some data.name)
  let p := { p with current_hp := data.current_hp, exp := data.exp,
                    ivs := data.ivs, evs := data.evs, status := data.status,
                    moves := data.moves }
  let stats := pokemon_stats p.base_stats p.ivs p.evs p.level
  ({ p with stats := stats, max_hp := stats.hp }, rng)

/-! ## `src/battle/damage_calc.py` -/

/-- The move types that use the Special stat for both attack and defense. -/
def special_types : List String :=
  ["fire", "water", "electric", "grass", "ice", "psychic", "dragon"]

/-- The stat `calculate_damage` divides by: the defender's Special for special
move types, its Defense otherwise.  The source divides by it directly, with no
minimum applied. -/
def damage_divisor (defender : Pokemon) (move_type : String) : ℤ :=
  if move_type ∈ special_types then defender.stats.special else defender.stats.defense

/-- `calculate_damage`: Gen-1 damage formula.  Returns
`(damage, effectiveness)` together with the advanced random state, or `none`
where the source raises `ZeroDivisionError` (defense stat 0). -/
def calculate_damage (attacker defender : Pokemon) (move : Move) (rng : Rng) :
    Option ((ℤ × ℚ) × Rng) :=
  if move.power = 0 then some ((0, 1), rng)
  else
    let level := attacker.level
    let move_type := move.type
    let attack := if move_type ∈ special_types then attacker.stats.special
                  else attacker.stats.attack
    let defense := damage_divisor defender move_type
    if defense = 0 then none
    else
      let damage : ℚ := ((2 * (level : ℚ) / 5 + 2) * (move.power : ℚ) * (attack : ℚ) /
        (defense : ℚ)) / 50 + 2
      let base_speed := attacker.base_stats.speed
      let crit_chance : ℚ := (base_speed : ℚ) / 512
      let (crit_roll, rng) := rng.randFloat
      let critical : ℚ := if crit_roll < crit_chance then 2 else 1
      let damage := damage * critical
      let stab : ℚ := if move_type ∈ attacker.types then 3/2 else 1
      let damage := damage * stab
      let effectiveness : ℚ :=
        defender.types.foldl (fun e t => e * get_type_effectiveness move_type t) 1
      let damage := damage * effectiveness
      let (factor_roll, rng) := rng.randInt 217 255
      let random_factor : ℚ := (factor_roll : ℚ) / 255
      let damage := damage * random_factor
      let final_damage : ℤ := if 0 < effectiveness then max 1 (pyInt damage) else 0
      some ((final_damage, effectiveness), rng)

/-- The exact pre-floor damage value of `calculate_damage` (the `damage`
variable just before the final `max(1, int(damage))` line), on the same random
draws. -/
def damage_value (attacker defender : Pokemon) (move : Move) (rng : Rng) : ℚ :=
  let level := attacker.level
  let move_type := move.type
  let attack := if move_type ∈ special_types then attacker.stats.special
                else attacker.stats.attack
  let defense := damage_divisor defender move_type
  let base : ℚ := ((2 * (level : ℚ) / 5 + 2) * (move.power : ℚ) * (attack : ℚ) /
    (defense : ℚ)) / 50 + 2
  let (crit_roll, rng) := rng.randFloat
  let critical : ℚ := if crit_roll < (attacker.base_stats.speed : ℚ) / 512 then 2 else 1
  let stab : ℚ := if move_type ∈ attacker.types then 3/2 else 1
  let effectiveness : ℚ :=
    defender.types.foldl (fun e t => e * get_type_effectiveness move_type t) 1
  let (factor_roll, _) := rng.randInt 217 255
  base * critical * stab * effectiveness * ((factor_roll : ℚ) / 255)

/-! ## `src/states/battle_state.py` -/

/-- The battle messages `BattleState` appends while executing moves. -/
inductive BMsg where
  | usedMove (attacker_name move_name : String)
  | superEffective
  | notVeryEffective
  | noEffect
  | fainted (defender_name : String)
deriving Repr, DecidableEq

/-- `BattleState._execute_move`: run one move of `attacker` against `defender`,
returning the updated defender, the queued messages and the advanced random
state (`none` where `calculate_damage` raises).  A `none` move does nothing. -/
def execute_move (attacker defender : Pokemon) (move : Option Move) (rng : Rng) :
    Option (Pokemon × List BMsg × Rng) :=
  match move with
  | none => some (defender, [], rng)
  | some move =>
    let msgs := [BMsg.usedMove attacker.name move.name]
    match calculate_damage attacker defender move rng with
    | none => none
    | some ((damage, effectiveness), rng) =>
      if 0 < damage then
        let defender := { defender with current_hp := max 0 (defender.current_hp - damage) }
        let msgs := msgs ++
          (if 1 < effectiveness then [BMsg.superEffective]
           else if effectiveness < 1 ∧ 0 < effectiveness then [BMsg.notVeryEffective]
           else if effectiveness = 0 then [BMsg.noEffect]
           else [])
        let msgs := msgs ++
          (if defender.current_hp ≤ 0 then [BMsg.fainted defender.name] else [])
        some (defender, msgs, rng)
      else
        some (defender, msgs, rng)

/-- The outcome of `BattleState._execute_turn`: the two (possibly damaged)
active Pokemon, the queued messages, and the advanced random state. -/
structure TurnResult where
  player : Pokemon
  enemy : Pokemon
  messages : List BMsg
  rng : Rng
deriving Repr, DecidableEq

/-- `BattleState._execute_turn`: resolve one full turn given the player's
selected move index and the AI-chosen enemy move.  The side whose current
Speed stat is `≥` the other's acts first (the player on ties); the second
actor only acts if it still has positive HP after the first action. -/
def execute_turn (player enemy : Pokemon) (player_move_index : ℕ)
    (enemy_move : Option Move) (rng : Rng) : Option TurnResult :=
  match player.moves.get? player_move_index with
  | none => some ⟨player, enemy, [], rng⟩
  | some player_move =>
    if player.stats.speed ≥ enemy.stats.speed then
      match execute_move player enemy (some player_move) rng with
      | none => none
      | some (enemy', msgs1, rng) =>
        if 0 < enemy'.current_hp then
          match execute_move enemy' player enemy_move rng with
          | none => none
          | some (player', msgs2, rng) => some ⟨player', enemy', msgs1 ++ msgs2, rng⟩
        else
          some ⟨player, enemy', msgs1, rng⟩
    else
      match execute_move enemy player enemy_move rng with
      | none => none
      | some (player', msgs1, rng) =>
        if 0 < player'.current_hp then
          match execute_move player' enemy (some player_move) rng with
          | none => none
          | some (enemy', msgs2, rng) => some ⟨player', enemy', msgs1 ++ msgs2, rng⟩
        else
          some ⟨player', enemy, msgs1, rng⟩

/-- The divisor of `BattleState._try_run`: `enemy_speed // 4`, with no minimum
applied in the source. -/
def state_run_divisor (enemy_speed : ℤ) : ℤ := enemy_speed.fdiv 4

/-- `BattleState._try_run`: the simplified escape roll
`(player_speed * 32) / (enemy_speed // 4) + 30`, `none` where the source
raises `ZeroDivisionError` (`enemy_speed // 4 == 0`). -/
def state_try_run (can_run : Bool) (player enemy : Option Pokemon) (rng : Rng) :
    Option (Bool × Rng) :=
  if can_run = false then some (false, rng)
  else
    match player, enemy with
    | some player, some enemy =>
      let player_speed := player.stats.speed
      let enemy_speed := enemy.stats.speed
      if state_run_divisor enemy_speed = 0 then none
      else
        let escape_chance : ℚ :=
          (player_speed * 32 : ℚ) / (state_run_divisor enemy_speed : ℚ) + 30
        let (roll, rng) := rng.randInt 0 255
        some (decide ((roll : ℚ) < escape_chance), rng)
    | _, _ => some (true, rng)

/-! ## `src/battle/battle_manager.py` -/

/-- The battle-wide state owned by `BattleManager`. -/
structure BattleManager where
  is_wild : Bool
  turn_count : ℤ
  player_party : List Pokemon
  enemy_party : List Pokemon
  player_index : ℕ
  enemy_index : ℕ
  escape_attempts : ℤ
deriving Repr, DecidableEq

/-- `BattleManager.player_pokemon`: the active player Pokemon, if the index is
in range. -/
def BattleManager.player_pokemon (bm : BattleManager) : Option Pokemon :=
  bm.player_party.get? bm.player_index

/-- `BattleManager.enemy_pokemon`: the active enemy Pokemon, if the index is in
range. -/
def BattleManager.enemy_pokemon (bm : BattleManager) : Option Pokemon :=
  bm.enemy_party.get? bm.enemy_index

/-- The divisor of `BattleManager.try_run`: `max(1, enemy_speed // 4)`. -/
def manager_run_divisor (enemy_speed : ℤ) : ℤ := max 1 (enemy_speed.fdiv 4)

/-- `BattleManager.try_run`: trainer battles fail immediately; wild battles
increment the escape-attempt counter and roll
`(player_speed * 32) / max(1, enemy_speed // 4) + 30 * attempts` against a
uniform `0..255` draw. -/
def BattleManager.try_run (bm : BattleManager) (rng : Rng) : Bool × BattleManager × Rng :=
  if bm.is_wild = false then (false, bm, rng)
  else
    match bm.player_pokemon, bm.enemy_pokemon with
    | some player, some enemy =>
      let bm := { bm with escape_attempts := bm.escape_attempts + 1 }
      let player_speed := player.stats.speed
      let enemy_speed := enemy.stats.speed
      let escape_odds : ℚ :=
        (player_speed * 32 : ℚ) / (manager_run_divisor enemy_speed : ℚ)
      let escape_odds := escape_odds + 30 * (bm.escape_attempts : ℚ)
      let (roll, rng) := rng.randInt 0 255
      (decide ((roll : ℚ) < escape_odds), bm, rng)
    | _, _ => (true, bm, rng)

/-- The messages `BattleManager.try_catch` returns. -/
inductive CatchMsg where
  | cantCatchTrainer
  | noPokemonToCatch
  | caughtMaster (name : String)
  | caughtGotcha (name : String)
  | brokeFree
  | appearedCaught
  | almostHadIt
  | soClose
deriving Repr, DecidableEq

/-- The divisor of the catch formula in `BattleManager.try_catch`:
`max(1, current_hp * ball_rate)`. -/
def catch_divisor (current_hp ball_rate : ℤ) : ℤ := max 1 (current_hp * ball_rate)

/-- `BattleManager.try_catch`: Gen-1 catch roll
`(max_hp * 255 * 4) / max(1, current_hp * ball_rate)` against a uniform
`0..255` draw, with up to three cosmetic shake sub-rolls on failure. -/
def BattleManager.try_catch (bm : BattleManager) (ball_type : String) (rng : Rng) :
    (Bool × CatchMsg) × Rng :=
  if bm.is_wild = false then ((false, .cantCatchTrainer), rng)
  else
    match bm.enemy_pokemon with
    | none => ((false, .noPokemonToCatch), rng)
    | some enemy =>
      let ball_rates : List (String × ℤ) :=
        [("pokeball", 255), ("greatball", 200), ("ultraball", 150), ("masterball", 0)]
      let ball_rate := (ball_rates.lookup ball_type).getD 255
      if ball_type = "masterball" then ((true, .caughtMaster enemy.name), rng)
      else
        let hp_factor : ℚ :=
          (enemy.max_hp * 255 * 4 : ℚ) / (catch_divisor enemy.current_hp ball_rate : ℚ)
        let (catch_check, rng) := rng.randInt 0 255
        if (catch_check : ℚ) < hp_factor then ((true, .caughtGotcha enemy.name), rng)
        else
          let (s1, rng) := rng.randInt 0 65535
          if (s1 : ℚ) < hp_factor * 256 then
            let (s2, rng) := rng.randInt 0 65535
            if (s2 : ℚ) < hp_factor * 256 then
              let (s3, rng) := rng.randInt 0 65535
              if (s3 : ℚ) < hp_factor * 256 then ((false, .soClose), rng)
              else ((false, .almostHadIt), rng)
            else ((false, .appearedCaught), rng)
          else ((false, .brokeFree), rng)

/-! ## Concrete sample data used by witnesses -/

/-- A freshly constructed level-5 PIKACHU (all IVs 0, from the empty pre-draw list). -/
def pikachu5 : Pokemon := (Pokemon.new ⟨[], []⟩ "PIKACHU" 5 none).1

/-- A freshly constructed level-3 RATTATA (all IVs 0). -/
def rattata3 : Pokemon := (Pokemon.new ⟨[], []⟩ "RATTATA" 3 none).1

/-- PIKACHU's first default move. -/
def thunderShock : Move := ⟨"THUNDER SHOCK", 40, "electric", 30, 30, 100⟩

/-- RATTATA's first default move. -/
def tackle : Move := ⟨"TACKLE", 40, "normal", 35, 35, 100⟩

/-! ## Helper lemmas -/

/-- Applying the minimum-1 clamp erases the difference between Python `int`
truncation and the mathematical floor. -/
theorem max_one_pyInt (q : ℚ) : max 1 (pyInt q) = max 1 ⌊q⌋ := by
  unfold pyInt
  split
  · rfl
  · next h =>
    push_neg at h
    have h1 : ⌈q⌉ ≤ 0 := Int.ceil_le.mpr (by exact_mod_cast h.le)
    have h2 : ⌊q⌋ ≤ 0 := (Int.floor_le_ceil q).trans h1
    omega

/-- `_execute_move` on an actual move either leaves the defender untouched or
only lowers its current HP by the (positive) damage, clamped at 0. -/
theorem execute_move_cases (a d : Pokemon) (mo : Option Move) (rng : Rng)
    (d' : Pokemon) (msgs : List BMsg) (rng' : Rng)
    (h : execute_move a d mo rng = some (d', msgs, rng')) :
    d' = d ∨ ∃ dmg : ℤ, 0 < dmg ∧ d' = { d with current_hp := max 0 (d.current_hp - dmg) } := by
  cases mo with
  | none =>
    simp only [execute_move, Option.some.injEq, Prod.mk.injEq] at h
    exact Or.inl h.1.symm
  | some m =>
    simp only [execute_move] at h
    rcases hcd : calculate_damage a d m rng with _ | ⟨⟨dmg, eff⟩, rng2⟩ <;>
      rw [hcd] at h <;> dsimp only at h
    · exact absurd h (by simp)
    · split at h
      · rename_i hdmg
        simp only [Option.some.injEq, Prod.mk.injEq] at h
        exact Or.inr ⟨dmg, hdmg, h.1.symm⟩
      · simp only [Option.some.injEq, Prod.mk.injEq] at h
        exact Or.inl h.1.symm

/-- `_execute_move` on an actual move always queues the "used move" message first. -/
theorem execute_move_head (a d : Pokemon) (m : Move) (rng : Rng)
    (d' : Pokemon) (msgs : List BMsg) (rng' : Rng)
    (h : execute_move a d (some m) rng = some (d', msgs, rng')) :
    msgs.head? = some (BMsg.usedMove a.name m.name) := by
  simp only [execute_move] at h
  rcases hcd : calculate_damage a d m rng with _ | ⟨⟨dmg, eff⟩, rng2⟩ <;>
    rw [hcd] at h <;> dsimp only at h
  · exact absurd h (by simp)
  · split at h
    · simp only [Option.some.injEq, Prod.mk.injEq] at h
      rw [← h.2.1]
      simp
    · simp only [Option.some.injEq, Prod.mk.injEq] at h
      rw [← h.2.1]
      simp

/-! ## Claim theorems -/

/-- C7: `BattleManager.try_run` in a trainer battle (`is_wild = false`) always
returns failure, leaving the whole battle state (in particular the
escape-attempt counter) and the random source untouched. -/
theorem C7_trainer_run_rejected (bm : BattleManager) (rng : Rng)
    (h : bm.is_wild = false) :
    bm.try_run rng = (false, bm, rng) := by
  unfold BattleManager.try_run
  rw [h]
  simp

/-- A trainer-battle manager used to witness C7. -/
def trainer_bm : BattleManager :=
  { is_wild := false, turn_count := 0, player_party := [pikachu5],
    enemy_party := [rattata3], player_index := 0, enemy_index := 0,
    escape_attempts := 0 }

/-- Witness for C7 at a concrete trainer battle. -/
theorem C7_witness : trainer_bm.try_run ⟨[], []⟩ = (false, trainer_bm, ⟨[], []⟩) :=
  C7_trainer_run_rejected trainer_bm ⟨[], []⟩ rfl

/-- C8: the type chart returns exactly 0 for a ghost-type attack against a
psychic-type defender, and the default 1 for any attack/defend pair absent
from the table. -/
theorem C8_ghost_psychic_quirk :
    get_type_effectiveness "ghost" "psychic" = 0 ∧
    ∀ attack_type defend_type : String,
      chart_lookup (pyLower attack_type) (pyLower defend_type) = none →
      get_type_effectiveness attack_type defend_type = 1 := by
  constructor
  · with_unfolding_all rfl
  · intro a d h
    unfold chart_lookup at h
    unfold get_type_effectiveness
    rcases hT : TYPE_CHART.lookup (pyLower a) with _ | inner
    · simp [hT]
    · rw [hT] at h
      dsimp only at h
      simp [hT, h]

/-- Witness for C8's defaulting clause at a concrete absent pair. -/
theorem C8_witness : get_type_effectiveness "water" "bug" = 1 :=
  C8_ghost_psychic_quirk.2 "water" "bug" (by with_unfolding_all rfl)

/-- The floor of the medium-slow experience cubic, as the spec words it
(mathematical floor, also at the level where the cubic is negative). -/
def medium_slow_floor (level : ℤ) : ℤ :=
  ⌊((6 * level ^ 3 : ℚ) / 5 - 15 * level ^ 2 + 100 * level - 140)⌋

/-- C6 counterexample: at level 1 the cubic is -53.8; the code's Python `int`
truncates toward zero and returns -53, while the claimed mathematical floor
is -54. -/
theorem C6_counterexample : exp_for_level 1 = -53 ∧ medium_slow_floor 1 = -54 := by
  constructor <;> with_unfolding_all rfl

/-- C6 (amended): for levels 2..100 the cubic is nonnegative, so truncation
and floor agree and `_exp_for_level` returns the mathematical floor; at
level 1 it returns -53 (one above the floor -54). -/
theorem C6_exp_curve (level : ℤ) (h2 : 2 ≤ level) (h100 : level ≤ 100) :
    exp_for_level level = medium_slow_floor level := by
  have hZ : 0 ≤ 6 * level ^ 3 - 75 * level ^ 2 + 500 * level - 700 := by
    nlinarith [mul_nonneg (by linarith : (0:ℤ) ≤ level - 2) (sq_nonneg (level - 6)),
      sq_nonneg (level - 2)]
  have hQ : (0:ℚ) ≤ (6 * level ^ 3 : ℚ) / 5 - 15 * level ^ 2 + 100 * level - 140 := by
    have h5 : (0:ℚ) ≤ (6 * level ^ 3 - 75 * level ^ 2 + 500 * level - 700 : ℤ) := by
      exact_mod_cast hZ
    push_cast at h5
    linarith
  unfold exp_for_level medium_slow_floor pyInt
  rw [if_pos hQ]

/-- Witness for C6's amended statement at level 2. -/
theorem C6_witness : exp_for_level 2 = medium_slow_floor 2 :=
  C6_exp_curve 2 (by decide) (by decide)

/-- C1: with positive power, the returned damage is exactly
`max(1, floor(damage))` when the combined type effectiveness is positive, and
exactly 0 when it is 0, whatever the other multipliers are. -/
theorem C1_final_damage (attacker defender : Pokemon) (move : Move)
    (rng rng' : Rng) (amount : ℤ) (eff : ℚ)
    (hpow : 0 < move.power)
    (h : calculate_damage attacker defender move rng = some ((amount, eff), rng')) :
    (get_all_effectiveness move.type defender.types = 0 → amount = 0) ∧
    (0 < get_all_effectiveness move.type defender.types →
      amount = max 1 ⌊damage_value attacker defender move rng⌋) := by
  unfold calculate_damage at h
  rw [if_neg (by omega : ¬ move.power = 0)] at h
  dsimp only [Rng.randFloat, Rng.randInt] at h
  split at h
  · exact absurd h (by simp)
  · simp only [Option.some.injEq, Prod.mk.injEq] at h
    obtain ⟨⟨h1, h2⟩, -⟩ := h
    constructor
    · intro hE0
      rw [← h1,
        show (List.foldl (fun e t => e * get_type_effectiveness move.type t) 1 defender.types)
          = get_all_effectiveness move.type defender.types from rfl, hE0]
      simp
    · intro hEpos
      rw [← h1,
        show (List.foldl (fun e t => e * get_type_effectiveness move.type t) 1 defender.types)
          = get_all_effectiveness move.type defender.types from rfl,
        if_pos hEpos, max_one_pyInt]
      congr 2

/-- Witness for C1 at a concrete battle (PIKACHU's THUNDER SHOCK, damage 11). -/
theorem C1_witness :
    (get_all_effectiveness thunderShock.type rattata3.types = 0 → (11:ℤ) = 0) ∧
    (0 < get_all_effectiveness thunderShock.type rattata3.types →
      (11:ℤ) = max 1 ⌊damage_value pikachu5 rattata3 thunderShock ⟨[1/2], [255]⟩⌋) :=
  C1_final_damage pikachu5 rattata3 thunderShock ⟨[1/2], [255]⟩ ⟨[], []⟩ 11 1
    (by decide) (by with_unfolding_all rfl)

/-- A RATTATA whose defense stat is 0 (C2 quantifies over all stat values). -/
def zero_defense_rattata : Pokemon :=
  { rattata3 with stats := { rattata3.stats with defense := 0 } }

/-- A RATTATA whose speed stat is 0. -/
def zero_speed_rattata : Pokemon :=
  { rattata3 with stats := { rattata3.stats with speed := 0 } }

/-- C2 counterexample: `calculate_damage` divides by the raw defense stat and
`BattleState._try_run` by `enemy_speed // 4` with no minimum-1 clamp, so both
raise `ZeroDivisionError` (modelled as `none`) at stat value 0. -/
theorem C2_counterexample :
    calculate_damage pikachu5 zero_defense_rattata tackle ⟨[1/2], [255]⟩ = none ∧
    state_try_run true (some pikachu5) (some zero_speed_rattata) ⟨[], [100]⟩ = none := by
  constructor <;> with_unfolding_all rfl

/-- C2 (amended): the catch formula and `BattleManager.try_run` do floor their
divisors at minimum 1; `calculate_damage` and `BattleState._try_run` do not,
but their divisors are nonzero whenever the stats involved come from
`calculate_stat`, which always returns at least 5. -/
theorem C2_division_safety :
    (∀ current_hp ball_rate : ℤ, 1 ≤ catch_divisor current_hp ball_rate) ∧
    (∀ enemy_speed : ℤ, 1 ≤ manager_run_divisor enemy_speed) ∧
    (∀ (base iv : ℤ) (ev : ℕ) (level : ℤ), 0 ≤ base + iv → 1 ≤ level →
      5 ≤ calculate_stat base iv ev level ∧
      1 ≤ state_run_divisor (calculate_stat base iv ev level)) ∧
    (∀ (attacker defender : Pokemon) (move : Move) (rng : Rng),
      1 ≤ damage_divisor defender move.type →
      calculate_damage attacker defender move rng ≠ none) := by
  have hstat : ∀ (base iv : ℤ) (ev : ℕ) (level : ℤ), 0 ≤ base + iv → 1 ≤ level →
      5 ≤ calculate_stat base iv ev level := by
    intro base iv ev level hbi hl
    unfold calculate_stat
    have hA : (0:ℚ) ≤ ((base : ℚ) + iv) * 2 + ((Nat.sqrt ev : ℤ) / 4 : ℤ) := by
      have h1 : (0:ℚ) ≤ (base : ℚ) + iv := by exact_mod_cast hbi
      have h2 : (0:ℤ) ≤ (Nat.sqrt ev : ℤ) / 4 := Int.ediv_nonneg (by positivity) (by norm_num)
      have h2q : (0:ℚ) ≤ (((Nat.sqrt ev : ℤ) / 4 : ℤ) : ℚ) := by exact_mod_cast h2
      linarith
    have hL : (0:ℚ) ≤ (level : ℚ) := by exact_mod_cast (by omega : (0:ℤ) ≤ level)
    have hfl : (0:ℤ) ≤ ⌊((((base + iv) * 2 + ((Nat.sqrt ev : ℤ) / 4 : ℤ)) * level : ℚ) / 100)⌋ := by
      apply Int.le_floor.mpr
      push_cast
      push_cast at hA
      have := mul_nonneg hA hL
      linarith
    refine le_trans (by omega) (le_max_right 1 _)
  refine ⟨fun hp rate => le_max_left 1 _, fun s => le_max_left 1 _, ?_, ?_⟩
  · intro base iv ev level hbi hl
    refine ⟨hstat base iv ev level hbi hl, ?_⟩
    have h5 := hstat base iv ev level hbi hl
    unfold state_run_divisor
    rw [Int.fdiv_eq_ediv _ (by norm_num)]
    omega
  · intro attacker defender move rng hdiv
    unfold calculate_damage
    split
    · simp
    · dsimp only
      rw [if_neg (by omega : ¬ damage_divisor defender move.type = 0)]
      simp

/-- Witness for C2's amended statement at base 30, IV 0, EV 0, level 5. -/
theorem C2_witness :
    (5:ℤ) ≤ calculate_stat 30 0 0 5 ∧ (1:ℤ) ≤ state_run_divisor (calculate_stat 30 0 0 5) :=
  C2_division_safety.2.2.1 30 0 0 5 (by decide) (by decide)

/-- C3 counterexample: a full concrete turn in which the player's move is used
(the "used move" message is queued) yet the remaining PP of every move of both
sides is unchanged — `_execute_turn` reads the move by index and never calls
`use_move`, so no PP is ever decremented during turn resolution. -/
theorem C3_counterexample :
    (execute_turn pikachu5 rattata3 0 (some tackle) ⟨[1/2, 1/2], [255, 255]⟩).map
        (fun r => (r.messages.take 1, r.player.moves.map Move.current_pp,
                   r.enemy.moves.map Move.current_pp)) =
      some ([BMsg.usedMove "PIKACHU" "THUNDER SHOCK"], [30, 40], [35, 30]) ∧
    pikachu5.moves.map Move.current_pp = [30, 40] ∧
    rattata3.moves.map Move.current_pp = [35, 30] := by
  refine ⟨?_, ?_, ?_⟩ <;> with_unfolding_all rfl

/-- C3 (amended): `Pokemon.use_move` rejects an exhausted move with no state
change and decrements a positive PP by exactly one; but turn resolution
(`BattleState._execute_turn`) never calls it — it leaves every move list, and
hence every PP counter, of both combatants unchanged. -/
theorem C3_pp_discipline :
    (∀ (p : Pokemon) (i : ℕ) (m : Move), p.moves.get? i = some m →
      m.current_pp ≤ 0 → p.use_move i = (none, p)) ∧
    (∀ (p : Pokemon) (i : ℕ) (m : Move), p.moves.get? i = some m →
      0 < m.current_pp →
      p.use_move i = (some { m with current_pp := m.current_pp - 1 },
        { p with moves := p.moves.set i { m with current_pp := m.current_pp - 1 } })) ∧
    (∀ (player enemy : Pokemon) (idx : ℕ) (em : Option Move) (rng : Rng) (r : TurnResult),
      execute_turn player enemy idx em rng = some r →
      r.player.moves = player.moves ∧ r.enemy.moves = enemy.moves) := by
  refine ⟨?_, ?_, ?_⟩
  · intro p i m hm hpp
    unfold Pokemon.use_move
    rw [hm]
    dsimp only
    rw [if_pos hpp]
  · intro p i m hm hpp
    unfold Pokemon.use_move
    rw [hm]
    dsimp only
    rw [if_neg (by omega : ¬ m.current_pp ≤ 0)]
  · intro player enemy idx em rng r h
    unfold execute_turn at h
    rcases hm : player.moves.get? idx with _ | pm <;> rw [hm] at h <;> dsimp only at h
    · simp only [Option.some.injEq] at h
      rw [← h]
      exact ⟨rfl, rfl⟩
    · split at h
      · rcases h1 : execute_move player enemy (some pm) rng with _ | ⟨enemy1, msgs1, rng1⟩ <;>
          rw [h1] at h <;> dsimp only at h
        · exact absurd h (by simp)
        · have he1 : enemy1.moves = enemy.moves := by
            rcases execute_move_cases _ _ _ _ _ _ _ h1 with rfl | ⟨dmg, -, rfl⟩ <;> rfl
          split at h
          · rcases h2 : execute_move enemy1 player em rng1 with _ | ⟨player2, msgs2, rng2⟩ <;>
              rw [h2] at h <;> dsimp only at h
            · exact absurd h (by simp)
            · have hp2 : player2.moves = player.moves := by
                rcases execute_move_cases _ _ _ _ _ _ _ h2 with rfl | ⟨dmg, -, rfl⟩ <;> rfl
              simp only [Option.some.injEq] at h
              rw [← h]
              exact ⟨hp2, he1⟩
          · simp only [Option.some.injEq] at h
            rw [← h]
            exact ⟨rfl, he1⟩
      · rcases h1 : execute_move enemy player em rng with _ | ⟨player1, msgs1, rng1⟩ <;>
          rw [h1] at h <;> dsimp only at h
        · exact absurd h (by simp)
        · have hp1 : player1.moves = player.moves := by
            rcases execute_move_cases _ _ _ _ _ _ _ h1 with rfl | ⟨dmg, -, rfl⟩ <;> rfl
          split at h
          · rcases h2 : execute_move player1 enemy (some pm) rng1 with _ | ⟨enemy2, msgs2, rng2⟩ <;>
              rw [h2] at h <;> dsimp only at h
            · exact absurd h (by simp)
            · have he2 : enemy2.moves = enemy.moves := by
                rcases execute_move_cases _ _ _ _ _ _ _ h2 with rfl | ⟨dmg, -, rfl⟩ <;> rfl
              simp only [Option.some.injEq] at h
              rw [← h]
              exact ⟨hp1, he2⟩
          · simp only [Option.some.injEq] at h
            rw [← h]
            exact ⟨hp1, rfl⟩

/-- Witness for C3's amended statement: using PIKACHU's first move through
`use_move` does decrement its PP from 30 to 29. -/
theorem C3_witness :
    pikachu5.use_move 0 = (some { thunderShock with current_pp := thunderShock.current_pp - 1 },
      { pikachu5 with
          moves := pikachu5.moves.set 0 { thunderShock with current_pp := thunderShock.current_pp - 1 } }) :=
  C3_pp_discipline.2.1 pikachu5 0 thunderShock (by with_unfolding_all rfl) (by decide)

/-- The claimed Combatant HP invariant: `0 ≤ current HP ≤ max HP`. -/
def hp_invariant (p : Pokemon) : Prop :=
  0 ≤ p.current_hp ∧ p.current_hp ≤ p.max_hp

/-- `calculate_hp` is monotone when the level rises by one (the base term of
the formula is nonnegative). -/
theorem calculate_hp_mono (base iv : ℤ) (ev : ℕ) (level : ℤ)
    (hbi : 0 ≤ base + iv) (hl : 0 ≤ level) :
    calculate_hp base iv ev level ≤ calculate_hp base iv ev (level + 1) := by
  unfold calculate_hp
  dsimp only
  have h2 : (0:ℤ) ≤ (Nat.sqrt ev : ℤ) / 4 := Int.ediv_nonneg (by positivity) (by norm_num)
  have hX : (0:ℚ) ≤ ((base:ℚ) + (iv:ℚ)) * 2 + (((Nat.sqrt ev : ℤ) / 4 : ℤ) : ℚ) := by
    have h1 : (0:ℚ) ≤ (base:ℚ) + (iv:ℚ) := by exact_mod_cast hbi
    have h2q : (0:ℚ) ≤ (((Nat.sqrt ev : ℤ) / 4 : ℤ) : ℚ) := by exact_mod_cast h2
    linarith
  have hAB : (((base:ℚ) + (iv:ℚ)) * 2 + (((Nat.sqrt ev : ℤ) / 4 : ℤ) : ℚ)) * ((level:ℤ):ℚ) / 100 ≤
      (((base:ℚ) + (iv:ℚ)) * 2 + (((Nat.sqrt ev : ℤ) / 4 : ℤ) : ℚ)) * (((level + 1 : ℤ)):ℚ) / 100 := by
    have hstep : ((level:ℤ):ℚ) ≤ (((level + 1 : ℤ)):ℚ) := by push_cast; linarith
    have := mul_le_mul_of_nonneg_left hstep hX
    linarith
  have key := Int.floor_le_floor hAB
  omega

/-- A persisted record carrying a current HP far above anything the stats at
its level can produce. -/
def bad_record : PokemonRecord :=
  { species := "PIKACHU", name := "PIKA", level := 5, current_hp := 9999, exp := 0,
    ivs := ⟨0, 0, 0, 0, 0⟩, evs := ⟨0, 0, 0, 0, 0⟩, moves := [], status := none }

/-- C4 counterexample: `from_dict` copies the persisted current HP without
clamping it against the recomputed max HP, so deserializing a record with
current HP 9999 at level 5 (max HP 18) violates the invariant. -/
theorem C4_counterexample :
    ¬ hp_invariant (Pokemon.from_dict ⟨[], []⟩ bad_record).1 := by
  unfold hp_invariant
  with_unfolding_all decide

/-- C4 (amended): `0 ≤ current HP ≤ max HP` holds after construction and is
preserved by `take_damage` and `heal` (for nonnegative amounts), by level-up
(for a Pokemon whose cached max HP matches its stat block), and by move
execution; `from_dict`, however, copies the persisted current HP without
clamping, so deserialization preserves the invariant only when the record's
current HP already lies within the recomputed bounds. -/
theorem C4_hp_invariant_ops :
    (∀ (rng : Rng) (species : String) (level : ℤ) (nick : Option String),
      hp_invariant (Pokemon.new rng species level nick).1) ∧
    (∀ (p : Pokemon) (d : ℤ), 0 ≤ d → hp_invariant p → hp_invariant (p.take_damage d)) ∧
    (∀ (p : Pokemon) (a : ℤ), 0 ≤ a → hp_invariant p → hp_invariant (p.heal a)) ∧
    (∀ p : Pokemon, hp_invariant p →
      p.max_hp = (pokemon_stats p.base_stats p.ivs p.evs p.level).hp →
      0 ≤ p.base_stats.hp + p.ivs.hp → 1 ≤ p.level →
      hp_invariant p.level_up) ∧
    (∀ (attacker defender : Pokemon) (mo : Option Move) (rng : Rng)
      (d' : Pokemon) (msgs : List BMsg) (rng' : Rng),
      hp_invariant defender → execute_move attacker defender mo rng = some (d', msgs, rng') →
      hp_invariant d') ∧
    (∀ (rng : Rng) (data : PokemonRecord),
      0 ≤ data.current_hp → data.current_hp ≤ (Pokemon.from_dict rng data).1.max_hp →
      hp_invariant (Pokemon.from_dict rng data).1) := by
  refine ⟨?_, ?_, ?_, ?_, ?_, ?_⟩
  · intro rng species level nick
    unfold Pokemon.new hp_invariant
    dsimp only [Rng.randInt]
    refine ⟨?_, le_refl _⟩
    unfold pokemon_stats calculate_hp
    dsimp only
    exact le_trans zero_le_one (le_max_left 1 _)
  · intro p d hd hinv
    unfold hp_invariant at hinv ⊢
    unfold Pokemon.take_damage
    dsimp only
    refine ⟨le_max_left 0 _, max_le ?_ ?_⟩ <;> omega
  · intro p a ha hinv
    unfold hp_invariant at hinv ⊢
    unfold Pokemon.heal
    dsimp only
    refine ⟨le_min ?_ ?_, min_le_left _ _⟩ <;> omega
  · intro p hinv hmax hbi hl
    have mono := calculate_hp_mono p.base_stats.hp p.ivs.hp p.evs.hp.toNat p.level hbi
      (by omega)
    have hnew : p.max_hp ≤ (pokemon_stats p.base_stats p.ivs p.evs (p.level + 1)).hp := by
      rw [hmax]
      exact mono
    unfold hp_invariant at hinv ⊢
    unfold Pokemon.level_up
    dsimp only
    refine ⟨le_min ?_ ?_, min_le_left _ _⟩ <;> omega
  · intro attacker defender mo rng d' msgs rng' hinv h
    rcases execute_move_cases _ _ _ _ _ _ _ h with rfl | ⟨dmg, hdmg, rfl⟩
    · exact hinv
    · unfold hp_invariant at hinv ⊢
      dsimp only
      refine ⟨le_max_left 0 _, max_le ?_ ?_⟩ <;> omega
  · intro rng data h0 hle
    have hcur : (Pokemon.from_dict rng data).1.current_hp = data.current_hp := rfl
    unfold hp_invariant
    rw [hcur]
    exact ⟨h0, hle⟩

/-- Witness for C4's amended statement: damaging a fresh PIKACHU by 5 keeps
its HP within bounds. -/
theorem C4_witness : hp_invariant (pikachu5.take_damage 5) :=
  C4_hp_invariant_ops.2.1 pikachu5 5 (by decide)
    ⟨by with_unfolding_all decide, by with_unfolding_all decide⟩

/-- When the player's Speed is at least the enemy's, the player's "used move"
message opens the turn's message queue. -/
theorem execute_turn_head_ge (player enemy : Pokemon) (idx : ℕ) (pm : Move)
    (em : Option Move) (rng : Rng) (r : TurnResult)
    (hpm : player.moves.get? idx = some pm)
    (hge : enemy.stats.speed ≤ player.stats.speed)
    (h : execute_turn player enemy idx em rng = some r) :
    r.messages.head? = some (BMsg.usedMove player.name pm.name) := by
  unfold execute_turn at h
  rw [hpm] at h
  dsimp only at h
  rw [if_pos (by omega : player.stats.speed ≥ enemy.stats.speed)] at h
  rcases h1 : execute_move player enemy (some pm) rng with _ | ⟨enemy1, msgs1, rng1⟩ <;>
    rw [h1] at h <;> dsimp only at h
  · exact absurd h (by simp)
  · have hh := execute_move_head _ _ _ _ _ _ _ h1
    split at h
    · rcases h2 : execute_move enemy1 player em rng1 with _ | ⟨player2, msgs2, rng2⟩ <;>
        rw [h2] at h <;> dsimp only at h
      · exact absurd h (by simp)
      · simp only [Option.some.injEq] at h
        rw [← h]
        simp [hh]
    · simp only [Option.some.injEq] at h
      rw [← h]
      simp [hh]

/-- When the enemy's Speed is strictly greater, the enemy's "used move"
message opens the turn's message queue. -/
theorem execute_turn_head_lt (player enemy : Pokemon) (idx : ℕ) (pm em : Move)
    (rng : Rng) (r : TurnResult)
    (hpm : player.moves.get? idx = some pm)
    (hlt : player.stats.speed < enemy.stats.speed)
    (h : execute_turn player enemy idx (some em) rng = some r) :
    r.messages.head? = some (BMsg.usedMove enemy.name em.name) := by
  unfold execute_turn at h
  rw [hpm] at h
  dsimp only at h
  rw [if_neg (by omega : ¬ player.stats.speed ≥ enemy.stats.speed)] at h
  rcases h1 : execute_move enemy player (some em) rng with _ | ⟨player1, msgs1, rng1⟩ <;>
    rw [h1] at h <;> dsimp only at h
  · exact absurd h (by simp)
  · have hh := execute_move_head _ _ _ _ _ _ _ h1
    split at h
    · rcases h2 : execute_move player1 enemy (some pm) rng1 with _ | ⟨enemy2, msgs2, rng2⟩ <;>
        rw [h2] at h <;> dsimp only at h
      · exact absurd h (by simp)
      · simp only [Option.some.injEq] at h
        rw [← h]
        simp [hh]
    · simp only [Option.some.injEq] at h
      rw [← h]
      simp [hh]

/-- C5: in turn resolution the combatant with strictly greater current Speed
acts first — its "used move" message is the first message of the turn. -/
theorem C5_speed_order (player enemy : Pokemon) (idx : ℕ) (pm em : Move)
    (rng : Rng) (r : TurnResult)
    (hpm : player.moves.get? idx = some pm)
    (h : execute_turn player enemy idx (some em) rng = some r) :
    (enemy.stats.speed < player.stats.speed →
      r.messages.head? = some (BMsg.usedMove player.name pm.name)) ∧
    (player.stats.speed < enemy.stats.speed →
      r.messages.head? = some (BMsg.usedMove enemy.name em.name)) :=
  ⟨fun hgt => execute_turn_head_ge player enemy idx pm (some em) rng r hpm hgt.le h,
   fun hlt => execute_turn_head_lt player enemy idx pm em rng r hpm hlt h⟩

/-- Witness for C5: PIKACHU (Speed 14) outspeeds RATTATA (Speed 9), so the
turn's first message is PIKACHU's. -/
theorem C5_witness :
    (execute_turn pikachu5 rattata3 0 (some tackle) ⟨[1/2, 1/2], [255, 255]⟩).map
      (fun r => r.messages.head?) =
      some (some (BMsg.usedMove "PIKACHU" "THUNDER SHOCK")) := by
  rcases hr : execute_turn pikachu5 rattata3 0 (some tackle) ⟨[1/2, 1/2], [255, 255]⟩
    with _ | r
  · exact absurd hr (by with_unfolding_all decide)
  · have hhead := (C5_speed_order pikachu5 rattata3 0 thunderShock tackle
      ⟨[1/2, 1/2], [255, 255]⟩ r (by with_unfolding_all rfl) hr).1
      (by with_unfolding_all decide)
    simp only [Option.map_some']
    rw [hhead]
    with_unfolding_all rfl

/-- A RATTATA whose speed stat is set equal to PIKACHU's, for the tie case. -/
def rattata_tied : Pokemon :=
  { rattata3 with stats := { rattata3.stats with speed := pikachu5.stats.speed } }

/-- C9: on a Speed tie the player always acts first — the tie-break is the
`>=` comparison in `_execute_turn`, deterministic and in the player's favour. -/
theorem C9_tie_player_first (player enemy : Pokemon) (idx : ℕ) (pm : Move)
    (em : Option Move) (rng : Rng) (r : TurnResult)
    (hpm : player.moves.get? idx = some pm)
    (heq : player.stats.speed = enemy.stats.speed)
    (h : execute_turn player enemy idx em rng = some r) :
    r.messages.head? = some (BMsg.usedMove player.name pm.name) :=
  execute_turn_head_ge player enemy idx pm em rng r hpm (le_of_eq heq.symm) h

/-- Witness for C9: a speed-14 RATTATA against speed-14 PIKACHU still moves
second. -/
theorem C9_witness :
    (execute_turn pikachu5 rattata_tied 0 (some tackle) ⟨[1/2, 1/2], [255, 255]⟩).map
      (fun r => r.messages.head?) =
      some (some (BMsg.usedMove "PIKACHU" "THUNDER SHOCK")) := by
  rcases hr : execute_turn pikachu5 rattata_tied 0 (some tackle) ⟨[1/2, 1/2], [255, 255]⟩
    with _ | r
  · exact absurd hr (by with_unfolding_all decide)
  · have hhead := C9_tie_player_first pikachu5 rattata_tied 0 thunderShock (some tackle)
      ⟨[1/2, 1/2], [255, 255]⟩ r (by with_unfolding_all rfl) (by with_unfolding_all rfl) hr
    simp only [Option.map_some']
    rw [hhead]
    with_unfolding_all rfl

/-- C10: one level-up recomputes stats and max HP at level+1, raises current
HP by exactly the max-HP increase (the cap at the new max never binds while
the HP invariant holds), so the damage taken (max HP minus current HP) is
unchanged, and every other field (moves/PP, status, IVs, EVs, experience,
base stats, types, name, species) is untouched. -/
theorem C10_level_up_frame (p : Pokemon)
    (hinv : hp_invariant p)
    (hmax : p.max_hp = (pokemon_stats p.base_stats p.ivs p.evs p.level).hp)
    (hbi : 0 ≤ p.base_stats.hp + p.ivs.hp)
    (hl : 1 ≤ p.level) :
    p.level_up.level = p.level + 1 ∧
    p.level_up.stats = pokemon_stats p.base_stats p.ivs p.evs (p.level + 1) ∧
    p.level_up.max_hp = (pokemon_stats p.base_stats p.ivs p.evs (p.level + 1)).hp ∧
    p.level_up.current_hp = p.current_hp + (p.level_up.max_hp - p.max_hp) ∧
    p.level_up.max_hp - p.level_up.current_hp = p.max_hp - p.current_hp ∧
    p.level_up.moves = p.moves ∧
    p.level_up.ivs = p.ivs ∧
    p.level_up.evs = p.evs ∧
    p.level_up.status = p.status ∧
    p.level_up.status_turns = p.status_turns ∧
    p.level_up.exp = p.exp ∧
    p.level_up.base_stats = p.base_stats ∧
    p.level_up.types = p.types ∧
    p.level_up.name = p.name ∧
    p.level_up.species = p.species := by
  have mono := calculate_hp_mono p.base_stats.hp p.ivs.hp p.evs.hp.toNat p.level hbi
    (by omega)
  have hnew : p.max_hp ≤ (pokemon_stats p.base_stats p.ivs p.evs (p.level + 1)).hp := by
    rw [hmax]
    exact mono
  obtain ⟨h0, h1⟩ := hinv
  unfold Pokemon.level_up
  dsimp only
  have hmin : min ((pokemon_stats p.base_stats p.ivs p.evs (p.level + 1)).hp)
      (p.current_hp + ((pokemon_stats p.base_stats p.ivs p.evs (p.level + 1)).hp - p.max_hp)) =
      p.current_hp + ((pokemon_stats p.base_stats p.ivs p.evs (p.level + 1)).hp - p.max_hp) :=
    min_eq_right (by omega)
  rw [hmin]
  refine ⟨rfl, rfl, rfl, rfl, by omega, rfl, rfl, rfl, rfl, rfl, rfl, rfl, rfl, rfl, rfl⟩

/-- Witness for C10: a slightly damaged fresh PIKACHU leveling from 5 to 6. -/
theorem C10_witness :
    (pikachu5.take_damage 5).level_up.current_hp =
      (pikachu5.take_damage 5).current_hp +
        ((pikachu5.take_damage 5).level_up.max_hp - (pikachu5.take_damage 5).max_hp) ∧
    (pikachu5.take_damage 5).level_up.max_hp - (pikachu5.take_damage 5).level_up.current_hp =
      (pikachu5.take_damage 5).max_hp - (pikachu5.take_damage 5).current_hp ∧
    (pikachu5.take_damage 5).level_up.moves = (pikachu5.take_damage 5).moves :=
  let h := C10_level_up_frame (pikachu5.take_damage 5)
    ⟨by with_unfolding_all decide, by with_unfolding_all decide⟩
    (by with_unfolding_all rfl) (by with_unfolding_all decide)
    (by with_unfolding_all decide)
  ⟨h.2.2.2.1, h.2.2.2.2.1, h.2.2.2.2.2.1⟩
